import Mathlib

/-!
Verification of the Outline client server-repository subsystem: the data
model (ServerConfig with optional proxy/source), the deduplication rule
configsMatch, the cipher-support policy, the PersistentServerRepository
operations (add, rename, forget, undoForget, storage migration, load) and
the OutlineServer connect rollback. JavaScript Map state is embedded as an
association list with Map.set/delete semantics; the key-value Storage is
embedded as the two records the repository uses (legacy key and current
key), each either absent, malformed (unparseable JSON) or parsed.
-/

/-- A concrete Shadowsocks proxy configuration: host, port, password,
method (cipher name) and an optional embedded display name. -/
structure ShadowsocksConfig where
  host : String
  port : Nat
  password : String
  method : String
  name : Option String := none
  deriving DecidableEq, Repr

/-- A proxy configuration source: a URL from which proxy configs can be
fetched dynamically. -/
structure ProxyConfigSource where
  url : String
  deriving DecidableEq, Repr

/-- A server configuration: optional display name, optional concrete proxy,
optional dynamic source. -/
structure ServerConfig where
  name : Option String := none
  proxy : Option ShadowsocksConfig := none
  source : Option ProxyConfigSource := none
  deriving DecidableEq, Repr

/-- Embedding of configsMatch from persistent_server: if both configs carry
a source, compare source URLs; otherwise, if both carry a proxy, compare
the (host, port, method, password) tuple; otherwise no match. -/
def configsMatch (left right : ServerConfig) : Bool :=
  match left.source, right.source with
  | some ls, some rs => ls.url == rs.url
  | _, _ =>
    match left.proxy, right.proxy with
    | some lp, some rp =>
      lp.host == rp.host && lp.port == rp.port &&
        lp.method == rp.method && lp.password == rp.password
    | _, _ => false

/-- The spec wording of the matching rule, as a flat disjunction without the
source-over-proxy precedence: match iff both sources present with equal URLs,
OR both proxies present with equal tuples. Used to compare the spec sentence
with the code. -/
def configsMatchSpec (left right : ServerConfig) : Bool :=
  (match left.source, right.source with
   | some ls, some rs => ls.url == rs.url
   | _, _ => false)
  ||
  (match left.proxy, right.proxy with
   | some lp, some rp =>
     lp.host == rp.host && lp.port == rp.port &&
       lp.method == rp.method && lp.password == rp.password
   | _, _ => false)

/-- The fixed AEAD cipher allow-list of OutlineServer. -/
def SUPPORTED_CIPHERS : List String :=
  ["chacha20-ietf-poly1305", "aes-128-gcm", "aes-192-gcm", "aes-256-gcm"]

/-- Embedding of the static OutlineServer.isServerCipherSupported: an absent
cipher is unsupported, a present one is supported iff in the allow-list. -/
def OutlineServer.isServerCipherSupported (cipher : Option String) : Bool :=
  match cipher with
  | none => false
  | some c => SUPPORTED_CIPHERS.contains c

/-- Embedding of the repository-level isServerCipherSupported: a config
without a proxy is always supported; one with a proxy defers to the
OutlineServer allow-list on its method. -/
def isServerCipherSupported (config : ServerConfig) : Bool :=
  match config.proxy with
  | none => true
  | some p => OutlineServer.isServerCipherSupported (some p.method)

/-- The cipher name carried by ShadowsocksUnsupportedCipher:
serverConfig.proxy?.method with JavaScript || fallback to "unknown"
(so an absent proxy or an empty method string both yield "unknown"). -/
def cipherErrorName (config : ServerConfig) : String :=
  match config.proxy with
  | none => "unknown"
  | some p => if p.method == "" then "unknown" else p.method

/-- A server as held by the repository: its stable id, its config, and the
mutable errorMessageId annotation set at load time. -/
structure PersistentServer where
  id : String
  config : ServerConfig
  errorMessageId : Option String := none
  deriving DecidableEq, Repr

/-- One record in the key-value storage, as the repository observes it:
absent (getItem returns null), malformed (a non-empty string JSON.parse
rejects), or parsed into an id-to-config association (JSON object key
order). A parsed record, even empty, is a non-empty string, hence truthy. -/
inductive StoredRecord (α : Type) where
  | absent
  | malformed
  | parsed (entries : List (String × α))
  deriving DecidableEq, Repr

/-- The two storage records the repository touches: the legacy key
"servers" (id to bare proxy config) and the current key "servers_v1"
(id to ServerConfig). -/
structure Storage where
  serversV0 : StoredRecord ShadowsocksConfig
  serversV1 : StoredRecord ServerConfig
  deriving DecidableEq, Repr

/-- Repository-emitted domain events observable through the event queue. -/
inductive OutlineEvent where
  | serverAdded (server : PersistentServer)
  | serverRenamed (server : PersistentServer)
  | serverForgotten (server : PersistentServer)
  | serverForgetUndone (server : PersistentServer)
  deriving DecidableEq, Repr

/-- The observable state of a PersistentServerRepository: the serverById
Map (association list in Map insertion order), the single-slot
lastForgottenServer buffer, the storage collaborator, and the sequence of
events enqueued so far. -/
structure RepoState where
  serverById : List (String × PersistentServer)
  lastForgottenServer : Option PersistentServer := none
  storage : Storage
  events : List OutlineEvent := []
  deriving DecidableEq, Repr

/-- JavaScript Map.get: the value at the first (hence only) entry with the
given key. -/
def mapGet (m : List (String × PersistentServer)) (k : String) :
    Option PersistentServer :=
  (m.find? (fun p => p.1 == k)).map (fun p => p.2)

/-- JavaScript Map.set: replace in place if the key is present, otherwise
append at the end (insertion order). -/
def mapSet (m : List (String × PersistentServer)) (k : String)
    (v : PersistentServer) : List (String × PersistentServer) :=
  if m.any (fun p => p.1 == k) then
    m.map (fun p => if p.1 == k then (k, v) else p)
  else
    m ++ [(k, v)]

/-- JavaScript Map.delete: drop every entry with the given key. -/
def mapDelete (m : List (String × PersistentServer)) (k : String) :
    List (String × PersistentServer) :=
  m.filter (fun p => p.1 != k)

/-- Embedding of getAll: the servers in Map value order. -/
def getAll (st : RepoState) : List PersistentServer :=
  st.serverById.map (fun p => p.2)

/-- Embedding of getById. -/
def getById (st : RepoState) (serverId : String) : Option PersistentServer :=
  mapGet st.serverById serverId

/-- Embedding of serverFromConfig: the first tracked server whose config
matches the given config. -/
def serverFromConfig (st : RepoState) (config : ServerConfig) :
    Option PersistentServer :=
  (getAll st).find? (fun server => configsMatch server.config config)

/-- Embedding of containsServer. -/
def containsServer (st : RepoState) (config : ServerConfig) : Bool :=
  (serverFromConfig st config).isSome

/-- Embedding of storeServers: serialize the full id-to-config map (keyed
by each server id field) under the current key. JSON.stringify of this
data always succeeds. -/
def storeServers (st : RepoState) : RepoState :=
  { st with storage :=
      { st.storage with serversV1 :=
          StoredRecord.parsed (st.serverById.map (fun p => (p.2.id, p.2.config))) } }

/-- The errors add can raise; factoryError stands for an exception escaping
the injected createServer factory. -/
inductive RepoError where
  | serverAlreadyAdded (existing : PersistentServer)
  | shadowsocksUnsupportedCipher (method : String)
  | factoryError
  deriving DecidableEq, Repr

/-- The injected PersistentServerFactory; none models the factory throwing.
The freshId argument to add stands for the uuidv4() allocation. -/
def PersistentServerFactory : Type :=
  String → ServerConfig → Option PersistentServer

/-- Embedding of add: duplicate check first, then cipher check, then
construct via the factory, insert under the server id, persist, and emit
ServerAdded. On an error the state at throw time is returned unchanged. -/
def add (createServer : PersistentServerFactory) (freshId : String)
    (st : RepoState) (serverConfig : ServerConfig) :
    Option RepoError × RepoState :=
  match serverFromConfig st serverConfig with
  | some alreadyAddedServer => (some (.serverAlreadyAdded alreadyAddedServer), st)
  | none =>
    if !isServerCipherSupported serverConfig then
      (some (.shadowsocksUnsupportedCipher (cipherErrorName serverConfig)), st)
    else
      match createServer freshId serverConfig with
      | none => (some .factoryError, st)
      | some server =>
        let st1 := { st with serverById := mapSet st.serverById server.id server }
        let st2 := storeServers st1
        (none, { st2 with events := st2.events ++ [.serverAdded server] })

/-- Embedding of the OutlineServer name setter: set config.name, and when a
proxy is present also set proxy.name, to the new name. -/
def setName (server : PersistentServer) (newName : String) : PersistentServer :=
  { server with config :=
      { server.config with
          name := some newName,
          proxy := server.config.proxy.map (fun p => { p with name := some newName }) } }

/-- Embedding of rename: no-op on an unknown id; otherwise apply the name
setter to the stored server, persist, emit ServerRenamed. -/
def rename (st : RepoState) (serverId : String) (newName : String) : RepoState :=
  match mapGet st.serverById serverId with
  | none => st
  | some server =>
    let renamed := setName server newName
    let st1 := { st with serverById := mapSet st.serverById serverId renamed }
    let st2 := storeServers st1
    { st2 with events := st2.events ++ [.serverRenamed renamed] }

/-- Embedding of forget: no-op on an unknown id; otherwise delete from the
map, stash in the single-slot buffer, persist, emit ServerForgotten. -/
def forget (st : RepoState) (serverId : String) : RepoState :=
  match mapGet st.serverById serverId with
  | none => st
  | some server =>
    let st1 := { st with
        serverById := mapDelete st.serverById serverId,
        lastForgottenServer := some server }
    let st2 := storeServers st1
    { st2 with events := st2.events ++ [.serverForgotten server] }

/-- Embedding of undoForget: no-op when the buffer is empty or holds a
server with a different id; otherwise reinsert under the buffered server id,
persist, emit ServerForgetUndone, clear the buffer. -/
def undoForget (st : RepoState) (serverId : String) : RepoState :=
  match st.lastForgottenServer with
  | none => st
  | some server =>
    if server.id != serverId then st
    else
      let st1 := { st with serverById := mapSet st.serverById server.id server }
      let st2 := storeServers st1
      { st2 with
          events := st2.events ++ [.serverForgetUndone server],
          lastForgottenServer := none }

/-- Embedding of migrateStorageV1: skip when the current key is truthy
(present, parsed or not); otherwise read the legacy key (absent or
malformed: give up silently), transform each bare proxy entry into
a config with that proxy and its embedded name, and write the result
under the current key. -/
def migrateStorageV1 (storage : Storage) : Storage :=
  match storage.serversV1 with
  | .absent =>
    match storage.serversV0 with
    | .absent => storage
    | .malformed => storage
    | .parsed entries =>
      { storage with serversV1 :=
          StoredRecord.parsed (entries.map (fun p =>
            (p.1, { proxy := some p.2, name := p.2.name : ServerConfig }))) }
  | _ => storage

/-- The load-time cipher tagging: a loaded server whose config has an
unsupported cipher gets errorMessageId set rather than being rejected. -/
def tagCipher (server : PersistentServer) : PersistentServer :=
  if !isServerCipherSupported server.config then
    { server with errorMessageId := some "unsupported-cipher" }
  else server

/-- Embedding of loadServers: an absent current record is an empty
repository; a malformed one is fatal; otherwise build each entry through
the factory, skipping entries on which it fails, tagging unsupported
ciphers, inserting in storage order. -/
def loadServers (createServer : PersistentServerFactory) (storage : Storage) :
    Except String (List (String × PersistentServer)) :=
  match storage.serversV1 with
  | .absent => .ok []
  | .malformed => .error "could not parse saved servers"
  | .parsed entries =>
    .ok (entries.foldl (fun m p =>
      match createServer p.1 p.2 with
      | none => m
      | some server => mapSet m p.1 (tagCipher server)) [])

/-- Embedding of the PersistentServerRepository constructor: run migration,
then load; a load failure escapes to the caller. -/
def constructRepository (createServer : PersistentServerFactory)
    (storage : Storage) : Except String RepoState :=
  let migrated := migrateStorageV1 storage
  match loadServers createServer migrated with
  | .error e => .error e
  | .ok m => .ok { serverById := m, storage := migrated }

/-- An error surfacing from the native tunnel code, carrying an optional
numeric errorCode (JavaScript truthiness: code 0 counts as absent) and an
opaque payload distinguishing errors. -/
structure NativeError where
  errorCode : Option Nat := none
  payload : String := ""
  deriving DecidableEq, Repr

/-- Modelled from the spec: model/errors.ts is not under src. Per the error
taxonomy, a native error carrying a (truthy) numeric code is translated via
fromErrorCode into the structured OutlinePluginError kind; an error without
such a code is re-raised unchanged. -/
inductive ConnectError where
  | pluginError (code : Nat)
  | nativeError (e : NativeError)
  deriving DecidableEq, Repr

/-- The catch-clause translation in OutlineServer.connect: if (e.errorCode)
throw fromErrorCode(e.errorCode) else throw e. Code 0 is falsy in
JavaScript, so it is re-raised untranslated. -/
def translateError (e : NativeError) : ConnectError :=
  match e.errorCode with
  | some code => if code == 0 then .nativeError e else .pluginError code
  | none => .nativeError e

/-- Embedding of OutlineServer.connect. The tunnel is abstracted by the
outcome of fetchProxyConfig and by start as a function of the config it is
started with. Returns the raised error (if any) together with the config
after the call: with a source present, a fetch failure or a start failure
deletes the proxy field before re-raising. -/
def OutlineServer.connect (fetchProxyConfig : Except NativeError (List ShadowsocksConfig))
    (start : ServerConfig → Except NativeError Unit) (config : ServerConfig) :
    Except ConnectError Unit × ServerConfig :=
  match config.source with
  | none =>
    match start config with
    | .ok _ => (.ok (), config)
    | .error e => (.error (translateError e), config)
  | some _ =>
    match fetchProxyConfig with
    | .error e => (.error (translateError e), { config with proxy := none })
    | .ok proxies =>
      match start { config with proxy := proxies.head? } with
      | .ok _ => (.ok (), { config with proxy := proxies.head? })
      | .error e => (.error (translateError e), { config with proxy := none })

/-- A concrete factory for witnesses: builds a server from the id and
config, as the OutlineServer-backed factory does, refusing nothing. -/
def defaultFactory : PersistentServerFactory :=
  fun id config => some { id := id, config := config }

/-- A factory for witnesses that throws on the id "bad". -/
def pickyFactory : PersistentServerFactory :=
  fun id config => if id == "bad" then none else some { id := id, config := config }

/-- Concrete proxy fixture. -/
def proxyP : ShadowsocksConfig :=
  { host := "h", port := 1, password := "p", method := "chacha20-ietf-poly1305" }

/-- Concrete config fixture: proxy only. -/
def cfgOnlyProxy : ServerConfig := { proxy := some proxyP }

/-- Concrete config fixture: source only. -/
def cfgOnlySource : ServerConfig := { source := some { url := "https://s.example" } }

/-- Concrete config fixture: source with URL u1 plus the shared proxy. -/
def cfgSourceU1 : ServerConfig :=
  { source := some { url := "u1" }, proxy := some proxyP }

/-- Concrete config fixture: source with URL u2 plus the shared proxy. -/
def cfgSourceU2 : ServerConfig :=
  { source := some { url := "u2" }, proxy := some proxyP }

/-- Concrete empty storage fixture. -/
def emptyStorage : Storage := { serversV0 := .absent, serversV1 := .absent }

/-- Concrete server fixture tracked under id a1. -/
def serverA : PersistentServer := { id := "a1", config := cfgOnlyProxy }

/-- Concrete repository state fixture tracking exactly serverA. -/
def stateA : RepoState := { serverById := [("a1", serverA)], storage := emptyStorage }

/-- Concrete empty repository state fixture. -/
def emptyState : RepoState := { serverById := [], storage := emptyStorage }

/-- Concrete proxy fixture with the legacy stream cipher rc4-md5. -/
def proxyRc4 : ShadowsocksConfig :=
  { host := "h", port := 1, password := "p", method := "rc4-md5" }

/-- Concrete config fixture around proxyRc4. -/
def cfgRc4 : ServerConfig := { proxy := some proxyRc4 }

/-- Concrete server fixture around cfgRc4, tracked under id r1. -/
def serverRc4 : PersistentServer := { id := "r1", config := cfgRc4 }

/-- Concrete repository state fixture tracking exactly serverRc4. -/
def stateRc4 : RepoState :=
  { serverById := [("r1", serverRc4)], storage := emptyStorage }

/-- Concrete proxy fixture whose method is the empty string. -/
def proxyEmptyMethod : ShadowsocksConfig :=
  { host := "h", port := 1, password := "p", method := "" }

/-- Concrete config fixture around proxyEmptyMethod. -/
def cfgEmptyMethod : ServerConfig := { proxy := some proxyEmptyMethod }

/-- Concrete legacy bare proxy record fixture with an embedded name. -/
def legacyProxy : ShadowsocksConfig :=
  { host := "h", port := 1, password := "p", method := "aes-128-gcm", name := some "N" }

/-- Concrete storage fixture: legacy record present, current record absent. -/
def legacyStorage : Storage :=
  { serversV0 := .parsed [("s1", legacyProxy)], serversV1 := .absent }

/-- The config the migration is expected to produce from legacyProxy. -/
def migratedConfig : ServerConfig := { name := some "N", proxy := some legacyProxy }

/-- Concrete storage fixture after migration: both records present. -/
def migratedStorage : Storage :=
  { serversV0 := .parsed [("s1", legacyProxy)],
    serversV1 := .parsed [("s1", migratedConfig)] }

/-- Concrete repository state fixture whose undo buffer holds serverA. -/
def stateBuffered : RepoState :=
  { serverById := [], lastForgottenServer := some serverA, storage := emptyStorage }


theorem mapGet_nil (k2 : String) : mapGet [] k2 = none := rfl

theorem mapGet_cons (p : String × PersistentServer)
    (m : List (String × PersistentServer)) (k2 : String) :
    mapGet (p :: m) k2 = if p.1 == k2 then some p.2 else mapGet m k2 := by
  by_cases h : p.1 = k2 <;>
    simp [mapGet, List.find?_cons_of_pos, List.find?_cons_of_neg, h]

theorem mapGet_mapDelete_self (m : List (String × PersistentServer)) (k : String) :
    mapGet (mapDelete m k) k = none := by
  induction m with
  | nil => rfl
  | cons p m ih =>
    unfold mapDelete at ih ⊢
    rw [List.filter_cons]
    by_cases hk : p.1 = k
    · rw [if_neg (by simp [hk])]
      exact ih
    · rw [if_pos (by simp [hk]), mapGet_cons, if_neg (by simp [hk]), ih]

theorem mapGet_mapDelete_ne (m : List (String × PersistentServer)) (k k2 : String)
    (h : k2 ≠ k) : mapGet (mapDelete m k) k2 = mapGet m k2 := by
  induction m with
  | nil => rfl
  | cons p m ih =>
    unfold mapDelete at ih ⊢
    rw [List.filter_cons]
    by_cases hk : p.1 = k
    · rw [if_neg (by simp [hk]), ih, mapGet_cons,
        if_neg (by simp [hk]; exact fun he => h he.symm)]
    · rw [if_pos (by simp [hk]), mapGet_cons, mapGet_cons, ih]

theorem any_key_mapDelete (m : List (String × PersistentServer)) (k : String) :
    (mapDelete m k).any (fun p => p.1 == k) = false := by
  induction m with
  | nil => rfl
  | cons p m ih =>
    unfold mapDelete at ih ⊢
    rw [List.filter_cons]
    by_cases hk : p.1 = k
    · rw [if_neg (by simp [hk])]
      exact ih
    · rw [if_pos (by simp [hk]), List.any_cons, ih]
      simp [hk]

theorem mapGet_append_single (m : List (String × PersistentServer))
    (k : String) (v : PersistentServer) (k2 : String)
    (h : m.any (fun p => p.1 == k) = false) :
    mapGet (m ++ [(k, v)]) k2 = if k2 == k then some v else mapGet m k2 := by
  induction m with
  | nil =>
    rw [List.nil_append, mapGet_cons, mapGet_nil]
    by_cases h2 : k2 = k
    · subst h2
      simp
    · rw [if_neg (by simp; exact fun he => h2 he.symm), if_neg (by simp [h2])]
  | cons p m ih =>
    simp only [List.any_cons, Bool.or_eq_false_iff, beq_eq_false_iff_ne] at h
    obtain ⟨hpk, hrest⟩ := h
    rw [List.cons_append]
    simp only [mapGet_cons]
    rw [ih (by simpa [beq_eq_false_iff_ne] using hrest)]
    by_cases h2 : p.1 = k2
    · have hne : ¬(k2 = k) := fun he => hpk (h2.trans he)
      simp [h2, hne]
    · by_cases h3 : k2 = k <;> simp [h2, h3, hpk]

theorem mapGet_replace (m : List (String × PersistentServer)) (k : String)
    (v : PersistentServer) (k2 : String) :
    mapGet (m.map (fun p => if p.1 == k then (k, v) else p)) k2
      = if k2 == k then (mapGet m k).map (fun _ => v) else mapGet m k2 := by
  induction m with
  | nil =>
    by_cases h : k2 = k
    · subst h
      simp [mapGet]
    · simp [mapGet, h]
  | cons p m ih =>
    rw [List.map_cons]
    by_cases hpk : p.1 = k
    · rw [if_pos (by simp [hpk])]
      simp only [mapGet_cons]
      rw [ih]
      by_cases h2 : k2 = k
      · subst h2
        simp [hpk]
      · simp [hpk, h2, Ne.symm h2]
    · rw [if_neg (by simp [hpk])]
      simp only [mapGet_cons]
      rw [ih]
      by_cases h2 : k2 = k
      · subst h2
        simp [hpk]
      · by_cases h3 : p.1 = k2 <;> simp [hpk, h2, h3]

theorem any_key_of_mapGet_isSome (m : List (String × PersistentServer)) (k : String) :
    m.any (fun p => p.1 == k) = (mapGet m k).isSome := by
  induction m with
  | nil => rfl
  | cons p m ih =>
    rw [List.any_cons, mapGet_cons]
    by_cases h : p.1 = k <;> simp [h, ih]

theorem mapGet_mapSet (m : List (String × PersistentServer)) (k : String)
    (v : PersistentServer) (k2 : String) :
    mapGet (mapSet m k v) k2 = if k2 == k then some v else mapGet m k2 := by
  unfold mapSet
  by_cases hany : m.any (fun p => p.1 == k) = true
  · rw [if_pos hany, mapGet_replace]
    by_cases h2 : k2 = k
    · rw [any_key_of_mapGet_isSome] at hany
      obtain ⟨x, hx⟩ := Option.isSome_iff_exists.mp hany
      simp [h2, hx]
    · simp [h2]
  · rw [if_neg hany, mapGet_append_single m k v k2 ?hfalse]
    case hfalse =>
      cases h : m.any (fun p => p.1 == k) with
      | false => rfl
      | true => exact absurd h hany

/-! ## Claim C1: the configsMatch rule -/

theorem beq_symm {α : Type} [BEq α] [LawfulBEq α] (x y : α) :
    (x == y) = (y == x) := by
  by_cases h : x = y
  · subst h
    rfl
  · rw [beq_eq_false_iff_ne.mpr h, beq_eq_false_iff_ne.mpr (Ne.symm h)]

/-- Claim C1 (amended): configsMatch is symmetric; it is true iff both
configs have a source with equal URLs, or neither source is present on one
of the two sides and both have proxies with equal (host, port, method,
password) tuples; and a config without a proxy never matches a config
without a source. The source comparison takes precedence: when both
sources are present the proxies are never consulted. -/
theorem C1_configsMatch (a b : ServerConfig) :
    configsMatch a b = configsMatch b a ∧
    (configsMatch a b = true ↔
      (∃ sa sb, a.source = some sa ∧ b.source = some sb ∧ sa.url = sb.url) ∨
      ((a.source = none ∨ b.source = none) ∧
        ∃ pa pb, a.proxy = some pa ∧ b.proxy = some pb ∧
          pa.host = pb.host ∧ pa.port = pb.port ∧
          pa.method = pb.method ∧ pa.password = pb.password)) ∧
    (a.proxy = none → b.source = none → configsMatch a b = false) := by
  rcases ha : a.source with _ | sa <;> rcases hb : b.source with _ | sb <;>
    rcases hpa : a.proxy with _ | pa <;> rcases hpb : b.proxy with _ | pb <;>
      simp [configsMatch, ha, hb, hpa, hpb, and_assoc, beq_symm]

/-- Claim C1 counterexample: two configs with distinct source URLs that
share an identical proxy tuple satisfy the spec disjunction (equal proxy
tuples) but do not match in the code, because the source branch takes
precedence and compares only URLs. -/
theorem C1_counterexample :
    configsMatch cfgSourceU1 cfgSourceU2 = false ∧
    configsMatchSpec cfgSourceU1 cfgSourceU2 = true ∧
    cfgSourceU1.proxy = cfgSourceU2.proxy := by decide

/-- Witness for C1: a source-only config and a proxy-only config never
match. -/
theorem C1_witness : configsMatch cfgOnlySource cfgOnlyProxy = false :=
  (C1_configsMatch cfgOnlySource cfgOnlyProxy).2.2 rfl rfl

/-! ## Claim C2: add on a duplicate config -/

/-- Claim C2: whenever some tracked server config matches the incoming
config, add raises ServerAlreadyAdded carrying the (first) matching tracked
server and returns the state unchanged: no insertion, no persistence, no
event. -/
theorem C2_add_duplicate (createServer : PersistentServerFactory)
    (freshId : String) (st : RepoState) (config : ServerConfig)
    (h : containsServer st config = true) :
    ∃ existing, serverFromConfig st config = some existing ∧
      existing ∈ getAll st ∧
      configsMatch existing.config config = true ∧
      add createServer freshId st config
        = (some (RepoError.serverAlreadyAdded existing), st) := by
  unfold containsServer at h
  obtain ⟨existing, hex⟩ := Option.isSome_iff_exists.mp h
  have hex2 : (getAll st).find? (fun server => configsMatch server.config config)
      = some existing := hex
  refine ⟨existing, hex, List.mem_of_find?_eq_some hex2,
    by simpa using List.find?_some hex2, ?_⟩
  unfold add
  rw [hex]

/-- Witness for C2: adding the concrete proxy config already tracked by
stateA fails with ServerAlreadyAdded serverA and leaves stateA unchanged. -/
theorem C2_witness :
    containsServer stateA cfgOnlyProxy = true ∧
    ∃ existing, serverFromConfig stateA cfgOnlyProxy = some existing ∧
      existing ∈ getAll stateA ∧
      configsMatch existing.config cfgOnlyProxy = true ∧
      add defaultFactory "f1" stateA cfgOnlyProxy
        = (some (RepoError.serverAlreadyAdded existing), stateA) :=
  ⟨by decide, C2_add_duplicate defaultFactory "f1" stateA cfgOnlyProxy (by decide)⟩

/-! ## Claim C8: undoForget with a stale or empty buffer -/

/-- Claim C8: undoForget is a strict no-op (identical state: same map, same
storage, same buffer, no event) when the buffer is empty or holds a server
whose id differs from the requested one. -/
theorem C8_undoForget_noop (st : RepoState) (idX : String)
    (h : st.lastForgottenServer = none ∨
      ∃ s, st.lastForgottenServer = some s ∧ s.id ≠ idX) :
    undoForget st idX = st := by
  unfold undoForget
  rcases h with h | ⟨s, hs, hne⟩
  · rw [h]
  · rw [hs]
    have hbne : (s.id != idX) = true := by simp [hne]
    simp [hbne]

/-- Witness for C8: undoForget for id zz while the buffer holds serverA
(id a1) changes nothing. -/
theorem C8_witness : undoForget stateBuffered "zz" = stateBuffered :=
  C8_undoForget_noop stateBuffered "zz" (Or.inr ⟨serverA, rfl, by decide⟩)

/-! ## Claim C9: the duplicate check precedes the cipher check -/

/-- Claim C9: for a config that both matches a tracked server and carries
an unsupported cipher, add raises ServerAlreadyAdded with the matching
server; and whenever add raises ShadowsocksUnsupportedCipher no tracked
server matches the config. -/
theorem C9_duplicate_checked_first (createServer : PersistentServerFactory)
    (freshId : String) :
    (∀ st config p existing, config.proxy = some p →
      p.method ∉ SUPPORTED_CIPHERS →
      serverFromConfig st config = some existing →
      add createServer freshId st config
        = (some (RepoError.serverAlreadyAdded existing), st)) ∧
    (∀ st config m,
      (add createServer freshId st config).1
          = some (RepoError.shadowsocksUnsupportedCipher m) →
      serverFromConfig st config = none) := by
  constructor
  · intro st config p existing hp hm hfound
    unfold add
    rw [hfound]
  · intro st config m h
    unfold add at h
    cases hsf : serverFromConfig st config with
    | none => rfl
    | some existing =>
      rw [hsf] at h
      simp at h

/-- Witness for C9: adding the rc4-md5 config already tracked by stateRc4
raises ServerAlreadyAdded, not ShadowsocksUnsupportedCipher. -/
theorem C9_witness :
    add defaultFactory "f1" stateRc4 cfgRc4
      = (some (RepoError.serverAlreadyAdded serverRc4), stateRc4) :=
  (C9_duplicate_checked_first defaultFactory "f1").1 stateRc4 cfgRc4 proxyRc4 serverRc4
    rfl (by decide) (by decide)

/-! ## Claim C3: the cipher-support policy -/

/-- Claim C3 (amended): a config without a proxy is always
cipher-supported; a config with a proxy is supported iff its method is one
of exactly chacha20-ietf-poly1305, aes-128-gcm, aes-192-gcm, aes-256-gcm;
and for a config with a proxy whose method is outside the set and no
matching tracked server, add raises ShadowsocksUnsupportedCipher carrying
that method when it is non-empty, and "unknown" for the empty method
string (the JavaScript || fallback). -/
theorem C3_cipher_policy (createServer : PersistentServerFactory)
    (freshId : String) (st : RepoState) (config : ServerConfig) :
    SUPPORTED_CIPHERS =
      ["chacha20-ietf-poly1305", "aes-128-gcm", "aes-192-gcm", "aes-256-gcm"] ∧
    (config.proxy = none → isServerCipherSupported config = true) ∧
    (∀ p, config.proxy = some p →
      (isServerCipherSupported config = true ↔ p.method ∈ SUPPORTED_CIPHERS)) ∧
    (∀ p, config.proxy = some p → p.method ∉ SUPPORTED_CIPHERS →
      serverFromConfig st config = none →
      add createServer freshId st config
        = (some (RepoError.shadowsocksUnsupportedCipher
            (if p.method = "" then "unknown" else p.method)), st)) := by
  refine ⟨rfl, ?_, ?_, ?_⟩
  · intro h
    simp [isServerCipherSupported, h]
  · intro p hp
    simp [isServerCipherSupported, OutlineServer.isServerCipherSupported, hp,
      List.elem_iff]
  · intro p hp hm hsf
    have hbad : isServerCipherSupported config = false := by
      simp [isServerCipherSupported, OutlineServer.isServerCipherSupported, hp,
        List.elem_iff, hm]
    unfold add
    rw [hsf, hbad]
    simp [cipherErrorName, hp]

/-- Claim C3 counterexample: a proxy whose method is the empty string is
outside the allow-list, yet add carries "unknown", not that method, in the
raised ShadowsocksUnsupportedCipher. -/
theorem C3_counterexample :
    isServerCipherSupported cfgEmptyMethod = false ∧
    (cfgEmptyMethod.proxy.map (fun p => p.method)) = some "" ∧
    add defaultFactory "f1" emptyState cfgEmptyMethod
      = (some (RepoError.shadowsocksUnsupportedCipher "unknown"), emptyState) ∧
    "unknown" ≠ "" := by decide

/-- Witness for C3: adding an rc4-md5 proxy config to the empty repository
raises ShadowsocksUnsupportedCipher with the method rc4-md5. -/
theorem C3_witness :
    add defaultFactory "f1" emptyState cfgRc4
      = (some (RepoError.shadowsocksUnsupportedCipher "rc4-md5"), emptyState) := by
  have h := (C3_cipher_policy defaultFactory "f1" emptyState cfgRc4).2.2.2 proxyRc4
    rfl (by decide) rfl
  simpa using h

/-! ## Claim C5: storage migration -/

theorem migrate_noop_of_v1_present (s : Storage)
    (h : s.serversV1 ≠ StoredRecord.absent) : migrateStorageV1 s = s := by
  unfold migrateStorageV1
  cases hv : s.serversV1 with
  | absent => exact absurd hv h
  | malformed => rfl
  | parsed entries => rfl

/-- Claim C5: migrating the concrete legacy record writes the {proxy, name}
record under the current key (and repository construction does so and loads
it); any storage whose current key is present is left untouched by
migration; and migration is idempotent. -/
theorem C5_migration :
    migrateStorageV1 legacyStorage = migratedStorage ∧
    constructRepository defaultFactory legacyStorage
      = Except.ok { serverById := [("s1", { id := "s1", config := migratedConfig })],
                    storage := migratedStorage } ∧
    (∀ s : Storage, s.serversV1 ≠ StoredRecord.absent → migrateStorageV1 s = s) ∧
    (∀ s : Storage, migrateStorageV1 (migrateStorageV1 s) = migrateStorageV1 s) := by
  refine ⟨by decide, rfl, migrate_noop_of_v1_present, ?_⟩
  intro s
  by_cases h : s.serversV1 = StoredRecord.absent
  · cases hv0 : s.serversV0 with
    | absent =>
      have h1 : migrateStorageV1 s = s := by
        unfold migrateStorageV1
        rw [h, hv0]
      rw [h1, h1]
    | malformed =>
      have h1 : migrateStorageV1 s = s := by
        unfold migrateStorageV1
        rw [h, hv0]
      rw [h1, h1]
    | parsed entries =>
      apply migrate_noop_of_v1_present
      unfold migrateStorageV1
      rw [h, hv0]
      simp
  · rw [migrate_noop_of_v1_present s h, migrate_noop_of_v1_present s h]

/-- Witness for C5: migration leaves the already-migrated storage (current
key present) untouched, even though its legacy record is still there. -/
theorem C5_witness : migrateStorageV1 migratedStorage = migratedStorage :=
  (C5_migration).2.2.1 migratedStorage (by decide)

/-! ## Claim C6: load skips entries the factory rejects -/

/-- Claim C6: when the current record parses and holds one entry the
injected factory fails on and one it succeeds on (in either order),
construction completes without raising and the map holds exactly the
server built from the valid entry (cipher-tagged as at load). -/
theorem C6_load_skips_failing (createServer : PersistentServerFactory)
    (v0 : StoredRecord ShadowsocksConfig) (idB idG : String)
    (cfgB cfgG : ServerConfig) (sG : PersistentServer)
    (hB : createServer idB cfgB = none) (hG : createServer idG cfgG = some sG) :
    constructRepository createServer
        { serversV0 := v0, serversV1 := .parsed [(idB, cfgB), (idG, cfgG)] }
      = Except.ok { serverById := [(idG, tagCipher sG)],
                    storage := { serversV0 := v0,
                                 serversV1 := .parsed [(idB, cfgB), (idG, cfgG)] } } ∧
    constructRepository createServer
        { serversV0 := v0, serversV1 := .parsed [(idG, cfgG), (idB, cfgB)] }
      = Except.ok { serverById := [(idG, tagCipher sG)],
                    storage := { serversV0 := v0,
                                 serversV1 := .parsed [(idG, cfgG), (idB, cfgB)] } } := by
  constructor
  · unfold constructRepository migrateStorageV1 loadServers
    simp [hB, hG, mapSet]
  · unfold constructRepository migrateStorageV1 loadServers
    simp [hB, hG, mapSet]

/-- Witness for C6: the picky factory fails on id bad and succeeds on id
good; construction loads exactly the good entry. -/
theorem C6_witness :
    constructRepository pickyFactory
        { serversV0 := .absent,
          serversV1 := .parsed [("bad", cfgOnlyProxy), ("good", cfgOnlyProxy)] }
      = Except.ok
          { serverById := [("good", tagCipher { id := "good", config := cfgOnlyProxy })],
            storage := { serversV0 := .absent,
                         serversV1 := .parsed [("bad", cfgOnlyProxy),
                                               ("good", cfgOnlyProxy)] } } :=
  (C6_load_skips_failing pickyFactory .absent "bad" "good" cfgOnlyProxy cfgOnlyProxy
    { id := "good", config := cfgOnlyProxy } (by decide) (by decide)).1

/-! ## Claim C7: connect rollback for source-based configs -/

/-- Claim C7: for a config carrying a source, a fetch failure or a start
failure makes connect re-raise (the translated error) and leave the config
with no proxy; more generally every erroring connect on such a config ends
with proxy absent. -/
theorem C7_connect_rollback (fetchProxyConfig : Except NativeError (List ShadowsocksConfig))
    (start : ServerConfig → Except NativeError Unit) (config : ServerConfig)
    (hsrc : config.source.isSome = true) :
    (∀ e, fetchProxyConfig = Except.error e →
      OutlineServer.connect fetchProxyConfig start config
        = (Except.error (translateError e), { config with proxy := none })) ∧
    (∀ proxies e, fetchProxyConfig = Except.ok proxies →
      start { config with proxy := proxies.head? } = Except.error e →
      OutlineServer.connect fetchProxyConfig start config
        = (Except.error (translateError e), { config with proxy := none })) ∧
    (∀ r cfg2, OutlineServer.connect fetchProxyConfig start config
        = (Except.error r, cfg2) → cfg2.proxy = none) := by
  obtain ⟨u, hu⟩ := Option.isSome_iff_exists.mp hsrc
  have hferr : ∀ e, fetchProxyConfig = Except.error e →
      OutlineServer.connect fetchProxyConfig start config
        = (Except.error (translateError e), { config with proxy := none }) := by
    intro e he
    unfold OutlineServer.connect
    rw [hu, he]
  have hserr : ∀ proxies e, fetchProxyConfig = Except.ok proxies →
      start { config with proxy := proxies.head? } = Except.error e →
      OutlineServer.connect fetchProxyConfig start config
        = (Except.error (translateError e), { config with proxy := none }) := by
    intro proxies e hp hstart
    unfold OutlineServer.connect
    rw [hu] at hstart ⊢
    rw [hp]
    simp [hstart]
  have hsok : ∀ proxies a, fetchProxyConfig = Except.ok proxies →
      start { config with proxy := proxies.head? } = Except.ok a →
      OutlineServer.connect fetchProxyConfig start config
        = (Except.ok (), { config with proxy := proxies.head? }) := by
    intro proxies a hp hstart
    unfold OutlineServer.connect
    rw [hu] at hstart ⊢
    rw [hp]
    simp [hstart]
  refine ⟨hferr, hserr, ?_⟩
  intro r cfg2 hconn
  cases hf : fetchProxyConfig with
  | error e =>
    rw [hferr e hf] at hconn
    have h2 := congrArg Prod.snd hconn
    simp only [] at h2
    rw [← h2]
  | ok proxies =>
    cases hst : start { config with proxy := proxies.head? } with
    | ok a =>
      rw [hsok proxies a hf hst] at hconn
      simp at hconn
    | error e =>
      rw [hserr proxies e hf hst] at hconn
      have h2 := congrArg Prod.snd hconn
      simp only [] at h2
      rw [← h2]

/-- Witness for C7: a failing fetch on a source-only config re-raises the
translated error and returns a proxy-free config. -/
theorem C7_witness :
    OutlineServer.connect (Except.error { errorCode := some 3 })
        (fun _ => Except.ok ()) cfgOnlySource
      = (Except.error (translateError { errorCode := some 3 }),
         { cfgOnlySource with proxy := none }) :=
  (C7_connect_rollback (Except.error { errorCode := some 3 })
    (fun _ => Except.ok ()) cfgOnlySource rfl).1 { errorCode := some 3 } rfl

/-! ## Claim C10: rename updates both names and preserves matching -/

theorem configsMatch_setName_left (s : PersistentServer) (n : String)
    (c : ServerConfig) :
    configsMatch (setName s n).config c = configsMatch s.config c := by
  unfold configsMatch setName
  rcases hsrc : s.config.source with _ | sa <;>
    rcases hpx : s.config.proxy with _ | pa <;>
      rcases c.source with _ | sb <;> rcases c.proxy with _ | pb <;>
        simp [hsrc, hpx]

theorem configsMatch_setName_right (c : ServerConfig) (s : PersistentServer)
    (n : String) :
    configsMatch c (setName s n).config = configsMatch c s.config := by
  unfold configsMatch setName
  rcases hsrc : s.config.source with _ | sa <;>
    rcases hpx : s.config.proxy with _ | pa <;>
      rcases c.source with _ | sb <;> rcases c.proxy with _ | pb <;>
        simp [hsrc, hpx]

/-- Claim C10: for a tracked server holding a concrete proxy, rename sets
both config.name and config.proxy.name to the new name, leaves the proxy
host, port, method and password and the config source untouched, and never
changes what the config matches under configsMatch (in either argument
position); the renamed server is stored back under the same id and a
ServerRenamed event is emitted. -/
theorem C10_rename (st : RepoState) (serverId newName : String)
    (s : PersistentServer) (p : ShadowsocksConfig)
    (hs : mapGet st.serverById serverId = some s)
    (hp : s.config.proxy = some p) :
    mapGet (rename st serverId newName).serverById serverId
      = some (setName s newName) ∧
    (setName s newName).config.name = some newName ∧
    (setName s newName).config.proxy = some { p with name := some newName } ∧
    (setName s newName).config.source = s.config.source ∧
    (∀ c, configsMatch (setName s newName).config c = configsMatch s.config c) ∧
    (∀ c, configsMatch c (setName s newName).config = configsMatch c s.config) ∧
    (rename st serverId newName).events
      = st.events ++ [OutlineEvent.serverRenamed (setName s newName)] := by
  have hrename : rename st serverId newName
      = { st with
          serverById := mapSet st.serverById serverId (setName s newName),
          storage :=
            { st.storage with
              serversV1 := StoredRecord.parsed
                            ((mapSet st.serverById serverId (setName s newName)).map
                              (fun q => (q.2.id, q.2.config))) },
          events := st.events ++ [OutlineEvent.serverRenamed (setName s newName)] } := by
    unfold rename storeServers
    rw [hs]
  refine ⟨?_, rfl, ?_, rfl, configsMatch_setName_left s newName,
    fun c => configsMatch_setName_right c s newName, ?_⟩
  · rw [hrename]
    show mapGet (mapSet st.serverById serverId (setName s newName)) serverId
      = some (setName s newName)
    rw [mapGet_mapSet]
    simp
  · simp [setName, hp]
  · rw [hrename]

/-- Witness for C10: renaming serverA in stateA stores the renamed server
with both names set and the proxy tuple intact. -/
theorem C10_witness :
    mapGet (rename stateA "a1" "n2").serverById "a1" = some (setName serverA "n2") ∧
    (setName serverA "n2").config.name = some "n2" ∧
    (setName serverA "n2").config.proxy = some { proxyP with name := some "n2" } := by
  have h := C10_rename stateA "a1" "n2" serverA proxyP (by decide) rfl
  exact ⟨h.1, h.2.1, h.2.2.1⟩

/-! ## Claim C4: forget then undoForget round-trips -/

/-- Claim C4: for a tracked server, forget then undoForget restores the
same id-to-server mapping (so the identical server, id and config are back
in the map), clears the undo buffer, persists the restored map, and emits
exactly one ServerForgotten and one ServerForgetUndone event; a second
undoForget immediately afterwards changes nothing and emits nothing. -/
theorem C4_forget_undoForget (st : RepoState) (serverId : String)
    (s : PersistentServer)
    (hs : mapGet st.serverById serverId = some s) (hid : s.id = serverId) :
    (∀ k, mapGet (undoForget (forget st serverId) serverId).serverById k
        = mapGet st.serverById k) ∧
    mapGet (undoForget (forget st serverId) serverId).serverById serverId = some s ∧
    (undoForget (forget st serverId) serverId).lastForgottenServer = none ∧
    (undoForget (forget st serverId) serverId).events
      = st.events ++ [OutlineEvent.serverForgotten s, OutlineEvent.serverForgetUndone s] ∧
    (undoForget (forget st serverId) serverId).storage.serversV1
      = StoredRecord.parsed
          ((undoForget (forget st serverId) serverId).serverById.map
            (fun q => (q.2.id, q.2.config))) ∧
    undoForget (undoForget (forget st serverId) serverId) serverId
      = undoForget (forget st serverId) serverId := by
  have hforget : forget st serverId
      = { st with
          serverById := mapDelete st.serverById serverId,
          lastForgottenServer := some s,
          storage :=
            { st.storage with
              serversV1 := StoredRecord.parsed
                            ((mapDelete st.serverById serverId).map
                              (fun q => (q.2.id, q.2.config))) },
          events := st.events ++ [OutlineEvent.serverForgotten s] } := by
    unfold forget storeServers
    rw [hs]
  have hbne : (s.id != serverId) = false := by simp [hid]
  have hundo : undoForget (forget st serverId) serverId
      = { st with
          serverById := mapSet (mapDelete st.serverById serverId) s.id s,
          lastForgottenServer := none,
          storage :=
            { st.storage with
              serversV1 := StoredRecord.parsed
                            ((mapSet (mapDelete st.serverById serverId) s.id s).map
                              (fun q => (q.2.id, q.2.config))) },
          events := (st.events ++ [OutlineEvent.serverForgotten s])
                      ++ [OutlineEvent.serverForgetUndone s] } := by
    rw [hforget]
    unfold undoForget storeServers
    simp [hbne]
  have hall : ∀ k, mapGet (undoForget (forget st serverId) serverId).serverById k
      = mapGet st.serverById k := by
    intro k
    rw [hundo]
    show mapGet (mapSet (mapDelete st.serverById serverId) s.id s) k
      = mapGet st.serverById k
    rw [hid, mapGet_mapSet]
    by_cases hk : k = serverId
    · subst hk
      simp [hs]
    · rw [if_neg (by simp [hk]), mapGet_mapDelete_ne st.serverById serverId k hk]
  refine ⟨hall, ?_, ?_, ?_, ?_, ?_⟩
  · rw [hall serverId]
    exact hs
  · rw [hundo]
  · rw [hundo]
    simp
  · rw [hundo]
  · rw [hundo]
    rfl

/-- Witness for C4: forgetting then unforgetting server a1 in stateA
restores it, clears the buffer, and a second undoForget is a no-op. -/
theorem C4_witness :
    mapGet (undoForget (forget stateA "a1") "a1").serverById "a1" = some serverA ∧
    (undoForget (forget stateA "a1") "a1").lastForgottenServer = none ∧
    undoForget (undoForget (forget stateA "a1") "a1") "a1"
      = undoForget (forget stateA "a1") "a1" := by
  have h := C4_forget_undoForget stateA "a1" serverA (by decide) rfl
  exact ⟨h.2.1, h.2.2.1, h.2.2.2.2.2⟩
